import Mathlib

/-!
Verification of the waveform-synthesis and WAV-container code of `sound.c`.

The development shallowly embeds the C functions as Lean functions:

* machine integers are `Nat` with explicit `% 2^32` (resp. `% 2^16`, `% 256`)
  wherever C unsigned arithmetic can wrap;
* the output stream is a `List ℕ` of bytes; writing at a file position is
  explicit list surgery, reading is indexing;
* the `long double` arithmetic of the synthesizer is embedded over `ℚ`, with
  the wave function a parameter exactly as in the C code;
* C functions that terminate the process on an error are embedded as
  `Except`- or `Option`-valued functions.
-/

namespace Sound

/-- `UINT32_MAX` from `<stdint.h>`. -/
def UINT32_MAX : ℕ := 4294967295

/-- Model of `checked_fgetc(file)` at position `pos` of a byte stream: the byte
at `pos`, or `255 = (uint8_t)EOF` past the end of the file.  Note: on EOF the C
function prints a diagnostic but, contrary to its own doc comment, does not
`exit(1)`; it returns `(uint8_t)EOF = 255` and the caller continues.  The model
reproduces that behaviour. -/
def checked_fgetc (f : List ℕ) (pos : ℕ) : ℕ := f.getD pos 255

/-- Model of `write_int_data(data, num_bytes)`: the sequence of bytes written,
least-significant first (`data & UCHAR_MAX`, then `data >>= CHAR_BIT`). -/
def write_int_data (data : ℕ) : ℕ → List ℕ
  | 0 => []
  | n + 1 => data % 256 :: write_int_data (data / 256) n

/-- Model of `read_int_data(file, num_bytes)` reading at position `pos`: the
bytes are combined least-significant first (`result += byte << (CHAR_BIT * i)`,
folded into a nested Horner form). -/
def read_int_data (f : List ℕ) (pos : ℕ) : ℕ → ℕ
  | 0 => 0
  | n + 1 => checked_fgetc f pos + 256 * read_int_data f (pos + 1) n

theorem length_write_int_data (data n : ℕ) : (write_int_data data n).length = n := by
  induction n generalizing data with
  | zero => rfl
  | succ n ih => simp [write_int_data, ih]

theorem mem_write_int_data_lt {b data n : ℕ} (h : b ∈ write_int_data data n) :
    b < 256 := by
  induction n generalizing data with
  | zero => simp [write_int_data] at h
  | succ n ih =>
    simp only [write_int_data, List.mem_cons] at h
    rcases h with h | h
    · subst h; exact Nat.mod_lt _ (by norm_num)
    · exact ih h

theorem read_int_data_cons (b : ℕ) (bs : List ℕ) (pos n : ℕ) :
    read_int_data (b :: bs) (pos + 1) n = read_int_data bs pos n := by
  induction n generalizing pos with
  | zero => rfl
  | succ n ih => simp [read_int_data, checked_fgetc, List.getD_cons_succ, ih]

theorem read_write_int_data (data n : ℕ) :
    read_int_data (write_int_data data n) 0 n = data % 2 ^ (8 * n) := by
  induction n generalizing data with
  | zero => simp [read_int_data, write_int_data, Nat.mod_one]
  | succ n ih =>
    have hpow : (2 : ℕ) ^ (8 * (n + 1)) = 256 * 2 ^ (8 * n) := by
      rw [Nat.mul_succ, pow_add]; ring
    simp only [write_int_data, read_int_data, checked_fgetc, List.getD_cons_zero]
    have h1 : read_int_data (data % 256 :: write_int_data (data / 256) n) (0 + 1) n =
        read_int_data (write_int_data (data / 256) n) 0 n :=
      read_int_data_cons _ _ 0 n
    rw [show (0 : ℕ) + 1 = 1 from rfl] at h1
    rw [h1, ih, hpow, Nat.mod_mul]

/-- Claim C9: for every byte count `n` and every value `v < 2^(8·n)`, writing
`v` with the little-endian writer `write_int_data` and reading the bytes back
with the little-endian reader `read_int_data` reconstructs exactly `v`: the
read primitive is the inverse of the write primitive. -/
theorem c9_read_write_roundtrip (n v : ℕ) (h : v < 2 ^ (8 * n)) :
    read_int_data (write_int_data v n) 0 n = v := by
  rw [read_write_int_data, Nat.mod_eq_of_lt h]

theorem c9_witness :
    305419896 < 2 ^ (8 * 4) ∧
      read_int_data (write_int_data 305419896 4) 0 4 = 305419896 :=
  ⟨by norm_num, c9_read_write_roundtrip 4 305419896 (by norm_num)⟩

/-- Model of `get_num_samples(duration)`; the global `sample_rate` is passed
explicitly.  All arithmetic is `uint32_t`, so products are reduced `% 2^32`;
`none` models the error-and-exit branch ("file … too large to store"). -/
def get_num_samples (duration sample_rate : ℕ) : Option ℕ :=
  let low := if duration > sample_rate then sample_rate else duration
  let high := if duration > sample_rate then duration else sample_rate
  if low / 1000 > UINT32_MAX / high then
    none
  else if low > UINT32_MAX / high then
    some ((high / 1000 + 1) * low % 2 ^ 32)
  else
    some ((high * low % 2 ^ 32 / 1000 + 1) % 2 ^ 32)

/-- Claim C4, counterexample: at `duration = 100`, `sample_rate = 8000` the
exact count `⌈100·8000/1000⌉ = 800`, but `get_num_samples` returns `801`. -/
theorem c4_counterexample :
    (100 * 8000 + 999) / 1000 = 800 ∧ get_num_samples 100 8000 = some 801 :=
  ⟨by norm_num, by decide⟩

/-- Claim C4 (amended): for `duration, sample_rate ≥ 1` whose product fits in
32 unsigned bits, `get_num_samples` returns `⌊duration·sample_rate/1000⌋ + 1` —
that is, the ceiling when 1000 does not divide the product, and one more than
the ceiling when it does. -/
theorem c4_get_num_samples_eq (d r : ℕ) (hd : 1 ≤ d) (hr : 1 ≤ r)
    (h : d * r ≤ UINT32_MAX) :
    get_num_samples d r = some (d * r / 1000 + 1) := by
  have hU : UINT32_MAX = 4294967295 := rfl
  unfold get_num_samples
  by_cases hdr : d > r
  · simp only [if_pos hdr]
    have hmul : r * d ≤ UINT32_MAX := by rw [mul_comm]; exact h
    have hle : r ≤ UINT32_MAX / d := (Nat.le_div_iff_mul_le hd).mpr hmul
    have hq : r / 1000 ≤ r := Nat.div_le_self _ _
    rw [if_neg (by omega), if_neg (by omega)]
    have hlt : d * r < 2 ^ 32 := by rw [hU] at h; omega
    rw [Nat.mod_eq_of_lt hlt, Nat.mod_eq_of_lt (by omega)]
  · simp only [if_neg hdr]
    have hle : d ≤ UINT32_MAX / r := (Nat.le_div_iff_mul_le hr).mpr h
    have hq : d / 1000 ≤ d := Nat.div_le_self _ _
    rw [if_neg (by omega), if_neg (by omega)]
    have hlt : r * d < 2 ^ 32 := by rw [mul_comm]; rw [hU] at h; omega
    have hlt2 : d * r < 2 ^ 32 := by rw [hU] at h; omega
    rw [Nat.mod_eq_of_lt hlt, mul_comm r d, Nat.mod_eq_of_lt (by omega)]

theorem c4_witness :
    (1 ≤ 100 ∧ 1 ≤ 8000 ∧ 100 * 8000 ≤ UINT32_MAX) ∧
      get_num_samples 100 8000 = some (100 * 8000 / 1000 + 1) :=
  ⟨⟨by norm_num, by norm_num, by norm_num [UINT32_MAX]⟩,
    c4_get_num_samples_eq 100 8000 (by norm_num) (by norm_num)
      (by norm_num [UINT32_MAX])⟩

/-- Claim C6 names a code bug: at `duration = 1999`, `sample_rate = 4294967295`
the exact sample count `⌈1999·4294967295/1000⌉ = 8585639623` is not
representable in 32 unsigned bits, yet `get_num_samples` reports no overflow:
it takes the `((high / 1000) + 1) * low` branch, whose `uint32_t` product
wraps, and returns the wrapped value `4290673736`. -/
theorem c6_overflow_wraps :
    2 ^ 32 ≤ (1999 * 4294967295 + 999) / 1000 ∧
      get_num_samples 1999 4294967295 = some 4290673736 ∧
      (4294967295 / 1000 + 1) * 1999 = 8585641032 ∧
      8585641032 % 2 ^ 32 = 4290673736 :=
  ⟨by norm_num, by decide, by norm_num, by norm_num⟩

/-- Truncation toward zero of a rational, modelling C's floating-point to
integer conversion (C11 6.3.1.4: the fractional part is discarded). -/
def trunc_to_int (q : ℚ) : Int := if 0 ≤ q then ⌊q⌋ else ⌈q⌉

/-- Conversion of the accumulated `long double` sample to `int16_t`, as in
`result[t] = (int16_t)sample`: truncation toward zero, then two's-complement
wrap into `[-32768, 32767]`.  (ISO C leaves the conversion undefined beyond
the `int16_t` range; the model adopts the mainstream wrap convention, which is
also what the spec's "truncating, not saturating" describes.) -/
def int16cast (q : ℚ) : Int :=
  if Int.emod (trunc_to_int q) 65536 < 32768 then Int.emod (trunc_to_int q) 65536
  else Int.emod (trunc_to_int q) 65536 - 65536

/-- The inner loop of `create_samples` for sample index `t`: `sample = 0;`
then for each `f < num_frequencies`,
`sample += ((volume / 100) * INT16_MAX * wave_function(frequencies[f], t)) / num_frequencies`. -/
def mix_sample (frequencies : ℕ → ℚ) (num_frequencies : ℕ) (volume : ℚ)
    (wave_function : ℚ → ℕ → ℚ) (t : ℕ) : ℚ :=
  (List.range num_frequencies).foldl
    (fun sample f =>
      sample + volume / 100 * 32767 * wave_function (frequencies f) t / num_frequencies)
    0

/-- Model of `create_samples(frequencies, num_frequencies, volume, num_samples,
wave_function)`: the returned array of `num_samples` samples.  The C frequency
array is modelled as an index function, and the `long double` wave function as
a `ℚ`-valued parameter. -/
def create_samples (frequencies : ℕ → ℚ) (num_frequencies : ℕ) (volume : ℚ)
    (num_samples : ℕ) (wave_function : ℚ → ℕ → ℚ) : List Int :=
  (List.range num_samples).map
    (fun t => int16cast (mix_sample frequencies num_frequencies volume wave_function t))

theorem int16cast_range (q : ℚ) : -32768 ≤ int16cast q ∧ int16cast q ≤ 32767 := by
  unfold int16cast
  have h1 : 0 ≤ Int.emod (trunc_to_int q) 65536 := Int.emod_nonneg _ (by norm_num)
  have h2 : Int.emod (trunc_to_int q) 65536 < 65536 := Int.emod_lt_of_pos _ (by norm_num)
  split <;> omega

theorem foldl_add_range (g : ℕ → ℚ) (n : ℕ) :
    (List.range n).foldl (fun s f => s + g f) 0 = ∑ f ∈ Finset.range n, g f := by
  induction n with
  | zero => simp
  | succ n ih =>
    rw [List.range_succ, List.foldl_append, ih, Finset.sum_range_succ]
    simp

theorem mix_sample_eq_sum (frequencies : ℕ → ℚ) (nf : ℕ) (volume : ℚ)
    (wave : ℚ → ℕ → ℚ) (t : ℕ) :
    mix_sample frequencies nf volume wave t =
      ∑ f ∈ Finset.range nf, volume / 100 * 32767 * wave (frequencies f) t / nf :=
  foldl_add_range (fun f => volume / 100 * 32767 * wave (frequencies f) t / nf) nf

/-- Claim C7: for every frequency list of length `1 ≤ n ≤ 255`, every
amplitude, every wave function and every sample count, `create_samples`
returns exactly `num_samples` values; the sample at each index `t` is the
truncating (not rounding, not saturating) `int16` cast of
`∑_f (amplitude/100)·32767·wave(f,t)/n`; and every value lies in the signed
16-bit range `[-32768, 32767]`. -/
theorem c7_create_samples_spec (frequencies : ℕ → ℚ) (nf : ℕ) (volume : ℚ)
    (ns : ℕ) (wave : ℚ → ℕ → ℚ) (h1 : 1 ≤ nf) (h2 : nf ≤ 255) :
    create_samples frequencies nf volume ns wave =
        (List.range ns).map (fun t =>
          int16cast (∑ f ∈ Finset.range nf,
            volume / 100 * 32767 * wave (frequencies f) t / nf)) ∧
      ∀ x ∈ create_samples frequencies nf volume ns wave,
        -32768 ≤ x ∧ x ≤ 32767 := by
  constructor
  · unfold create_samples
    exact List.map_congr_left (fun t _ => by rw [mix_sample_eq_sum])
  · intro x hx
    simp only [create_samples, List.mem_map] at hx
    obtain ⟨t, ht, rfl⟩ := hx
    exact int16cast_range _

theorem c7_witness :
    (1 ≤ 1 ∧ (1 : ℕ) ≤ 255) ∧
      (create_samples (fun _ => 440) 1 100 3 (fun _ _ => 0) =
          (List.range 3).map (fun t =>
            int16cast (∑ _f ∈ Finset.range 1, (100 : ℚ) / 100 * 32767 * 0 / (1 : ℕ))) ∧
        ∀ x ∈ create_samples (fun _ => 440) 1 100 3 (fun _ _ => 0),
          -32768 ≤ x ∧ x ≤ 32767) := by
  refine ⟨⟨le_refl 1, by norm_num⟩, ?_⟩
  have h := c7_create_samples_spec (fun _ => 440) 1 100 3 (fun _ _ => 0)
    (le_refl 1) (by norm_num)
  simpa using h

/-- Model of the call `create_samples(frequencies, num_frequencies, …)` in
`main`: `num_frequencies = (num_overtones + 1) * num_pitches` is an `int`, and
its implicit conversion to the `uint8_t` parameter of `create_samples` reduces
it modulo 256. -/
def main_create_samples (frequencies : ℕ → ℚ) (num_pitches num_overtones : ℕ)
    (volume : ℚ) (num_samples : ℕ) (wave_function : ℚ → ℕ → ℚ) : List Int :=
  create_samples frequencies ((num_overtones + 1) * num_pitches % 256) volume
    num_samples wave_function

/-- Claim C10: when the effective frequency count
`num_pitches * (overtone_count + 1)` does not fit in 8 bits, no error is
reported — `create_samples` receives the count reduced modulo 256, so it uses
only the first `count % 256` frequencies; in particular a count of exactly 256
makes the mixing loop empty, and every produced sample is `(int16_t)0.0 = 0`. -/
theorem c10_uint8_truncation (frequencies : ℕ → ℚ) (np no : ℕ) (volume : ℚ)
    (ns : ℕ) (wave : ℚ → ℕ → ℚ) (h : (no + 1) * np = 256) :
    main_create_samples frequencies np no volume ns wave =
        create_samples frequencies ((no + 1) * np % 256) volume ns wave ∧
      main_create_samples frequencies np no volume ns wave = List.replicate ns 0 := by
  refine ⟨rfl, ?_⟩
  unfold main_create_samples
  rw [h]
  show create_samples frequencies (256 % 256) volume ns wave = _
  norm_num [create_samples, mix_sample, int16cast, trunc_to_int]

theorem c10_witness :
    (15 + 1) * 16 = 256 ∧
      main_create_samples (fun _ => 440) 16 15 100 2 (fun _ _ => 0) =
        List.replicate 2 0 :=
  ⟨by norm_num,
    (c10_uint8_truncation (fun _ => 440) 16 15 100 2 (fun _ _ => 0) (by norm_num)).2⟩

-- The four 4-byte ASCII tags of the format, as byte lists.
def CHUNK_ID : List ℕ := [82, 73, 70, 70]

def FORMAT : List ℕ := [87, 65, 86, 69]

def SUBCHUNK1_ID : List ℕ := [102, 109, 116, 32]

def SUBCHUNK2_ID : List ℕ := [100, 97, 116, 97]

/-- The `BYTE_RATE` macro, `sample_rate * NUM_CHANNELS * BITS_PER_SAMPLE / 8`
with `NUM_CHANNELS = 1` and `BITS_PER_SAMPLE = 16`, evaluated in `uint32_t`
arithmetic. -/
def BYTE_RATE (sample_rate : ℕ) : ℕ := sample_rate % 2 ^ 32 * 16 % 2 ^ 32 / 8

/-- `n * NUM_CHANNELS * BITS_PER_SAMPLE / 8` in `uint32_t` arithmetic: the
data-chunk byte size computed for `n` 16-bit mono samples, as in
`create_sound_file` and `append_sound_file`. -/
def subchunk2_size_of (n : ℕ) : ℕ := n % 2 ^ 32 * 16 % 2 ^ 32 / 8

/-- The bytes of one sample, `write_int_data(data[i], 2)`: the `int16_t` value
is converted to `size_t` (two's complement), and the low two bytes are written
least-significant first. -/
def byte16 (s : Int) : List ℕ := write_int_data (Int.emod s 65536).toNat 2

/-- The 32 header bytes at offsets 8–39, which do not depend on the data size:
"WAVE", "fmt ", Subchunk 1 size 16, audio format 1, channel count 1, sample
rate, byte rate, block align 2, bits per sample 16, "data". -/
def wav_mid (sample_rate : ℕ) : List ℕ :=
  FORMAT ++ (SUBCHUNK1_ID ++ (write_int_data 16 4 ++ (write_int_data 1 2 ++
  (write_int_data 1 2 ++ (write_int_data (sample_rate % 2 ^ 32) 4 ++
  (write_int_data (BYTE_RATE sample_rate) 4 ++ (write_int_data 2 2 ++
  (write_int_data 16 2 ++ SUBCHUNK2_ID))))))))

/-- The 44-byte header written by `create_sound_file`, with `ds` the value of
the Subchunk 2 Size field (offset 40) and `36 + ds` (as `uint32_t`) the value
of the Chunk Size field (offset 4). -/
def wav_header (sample_rate ds : ℕ) : List ℕ :=
  CHUNK_ID ++ (write_int_data ((36 + ds) % 2 ^ 32) 4 ++ (wav_mid sample_rate ++
  write_int_data ds 4))

/-- Model of `create_sound_file(data, data_length)`: the byte stream written to
the output file, in source order — `checked_fprintf(out, "%s", tag)` writes the
4 tag bytes, `write_int_data` writes little-endian integers, and each sample is
written with `write_int_data(data[i], 2)`. -/
def create_sound_file (data : List Int) (sample_rate : ℕ) : List ℕ :=
  wav_header sample_rate (subchunk2_size_of data.length) ++ data.flatMap byte16

/-- Writing the byte list `bs` at byte offset `off` of the file `f`: the model
of `checked_fseek(out, off, SEEK_SET)` followed by one `checked_fputc` per
byte.  Bytes inside the file are overwritten in place, writing at or past the
end extends the file, and a seek beyond the end fills the gap with zero bytes
(POSIX semantics). -/
def write_bytes_at (f : List ℕ) (off : ℕ) (bs : List ℕ) : List ℕ :=
  f.take off ++ List.replicate (off - f.length) 0 ++ bs ++ f.drop (off + bs.length)

/-- Model of the `fread(buf, sizeof(char), size, out)` of
`verify_string_header`, reading `n` bytes at offset `off`.  A read entirely
past the end of the file returns 0 bytes and the caller exits; in every
reachable call the full `n` bytes exist, so padding only arises in unreachable
partial-read states. -/
def fread_bytes (f : List ℕ) (off n : ℕ) : List ℕ :=
  (List.range n).map (fun i => checked_fgetc f (off + i))

/-- The fatal errors raised by `append_sound_file` before it writes anything:
header-corruption errors carry the field name, the expected value and the
value actually read (as printed by `verify_int_header` and
`verify_string_header`); `readFail` models the `"Read failed"` exit taken by
`verify_string_header` when `fread` returns no bytes. -/
inductive HeaderError where
  | intField (name : String) (expected actual : ℕ)
  | strField (name : String) (expected actual : List ℕ)
  | readFail
  deriving DecidableEq, Repr

deriving instance DecidableEq for Except

/-- Model of `verify_int_header(field_name, field, offset, size)`: seek to
`offset`, read `size` bytes little-endian, and exit with a corruption error
naming the field, the expected value and the encountered value when they
differ. -/
def verify_int_header (f : List ℕ) (field_name : String) (field : ℕ)
    (offset size : ℕ) : Except HeaderError Unit :=
  if field = read_int_data f offset size then Except.ok ()
  else Except.error (HeaderError.intField field_name field (read_int_data f offset size))

/-- Model of `verify_string_header(field_name, field, offset, size)`: seek to
`offset`, `fread` `size` bytes (exiting if no byte can be read), and exit with
a corruption error when the bytes differ from the expected tag.  The expected
tags contain no NUL byte, so `strncmp(buf, field, size) == 0` is plain byte
equality. -/
def verify_string_header (f : List ℕ) (field_name : String) (field : List ℕ)
    (offset size : ℕ) : Except HeaderError Unit :=
  if f.length ≤ offset then Except.error HeaderError.readFail
  else if fread_bytes f offset size = field then Except.ok ()
  else Except.error (HeaderError.strField field_name field (fread_bytes f offset size))

/-- Model of `append_sound_file(new_data, new_data_length)` acting on the byte
stream `f` of the opened file; the global `sample_rate` is explicit.  As in
the source: read the Chunk Size field and derive the previous data-chunk size
(`size_t` read, result stored in `uint32_t`), verify every header field in
source order, and only after all verification rewrite the Chunk Size and
Subchunk 2 Size fields and write the new samples after the existing data.
`Except.error` models `exit(1)`: the process dies with the file bytes
untouched, every write being sequenced after all verification. -/
def append_sound_file (f : List ℕ) (new_data : List Int) (sample_rate : ℕ) :
    Except HeaderError (List ℕ) := do
  let subchunk2_size_addition := subchunk2_size_of new_data.length
  let prev_subchunk2_size := (read_int_data f 4 4 + 2 ^ 32 - 36) % 2 ^ 32
  verify_string_header f "Chunk ID" CHUNK_ID 0 4
  verify_string_header f "Format" FORMAT 8 4
  verify_string_header f "Subchunk 1 ID" SUBCHUNK1_ID 12 4
  verify_int_header f "Subchunk 1 size" 16 16 4
  verify_int_header f "Audio format" 1 20 2
  verify_int_header f "Number of channels" 1 22 2
  verify_int_header f "Sample rate" (sample_rate % 2 ^ 32) 24 4
  verify_int_header f "Byte rate" (BYTE_RATE sample_rate) 28 4
  verify_int_header f "Block align" 2 32 2
  verify_int_header f "Bits per sample" 16 34 2
  verify_string_header f "Subchunk 2 ID" SUBCHUNK2_ID 36 4
  verify_int_header f "Subchunk 2 size" prev_subchunk2_size 40 4
  let f1 := write_bytes_at f 4
    (write_int_data ((prev_subchunk2_size + subchunk2_size_addition + 36) % 2 ^ 32) 4)
  let f2 := write_bytes_at f1 40
    (write_int_data ((subchunk2_size_addition + prev_subchunk2_size) % 2 ^ 32) 4)
  pure (write_bytes_at f2 (44 + prev_subchunk2_size) (new_data.flatMap byte16))

theorem length_wav_mid (r : ℕ) : (wav_mid r).length = 32 := by
  simp [wav_mid, FORMAT, SUBCHUNK1_ID, SUBCHUNK2_ID, length_write_int_data]

theorem length_wav_header (r ds : ℕ) : (wav_header r ds).length = 44 := by
  simp [wav_header, CHUNK_ID, length_wav_mid, length_write_int_data]

theorem length_byte16 (s : Int) : (byte16 s).length = 2 := by
  simp [byte16, length_write_int_data]

theorem length_flatMap_byte16 (S : List Int) : (S.flatMap byte16).length = 2 * S.length := by
  induction S with
  | nil => simp
  | cons s S ih => simp [List.flatMap_cons, length_byte16, ih]; ring

theorem length_create_sound_file (S : List Int) (r : ℕ) :
    (create_sound_file S r).length = 44 + 2 * S.length := by
  rw [create_sound_file, List.length_append, length_wav_header, length_flatMap_byte16]

theorem length_write_bytes_at (f : List ℕ) (off : ℕ) (bs : List ℕ) :
    (write_bytes_at f off bs).length = max f.length (off + bs.length) := by
  simp [write_bytes_at]
  omega

theorem subchunk2_size_of_eq (n : ℕ) (h : n < 2 ^ 28) : subchunk2_size_of n = 2 * n := by
  unfold subchunk2_size_of
  omega

theorem subchunk2_size_of_lt (n : ℕ) : subchunk2_size_of n < 2 ^ 29 := by
  unfold subchunk2_size_of
  omega

theorem BYTE_RATE_lt (r : ℕ) : BYTE_RATE r < 2 ^ 29 := by
  unfold BYTE_RATE
  omega

theorem checked_fgetc_write_bytes_at (f : List ℕ) (off : ℕ) (bs : List ℕ)
    (hoff : off ≤ f.length) (i : ℕ) :
    checked_fgetc (write_bytes_at f off bs) i =
      if off ≤ i ∧ i < off + bs.length then checked_fgetc bs (i - off)
      else checked_fgetc f i := by
  unfold write_bytes_at checked_fgetc
  rw [Nat.sub_eq_zero_of_le hoff, List.replicate_zero, List.append_nil]
  have htake : (f.take off).length = off := by simp [List.length_take]; omega
  have hlen2 : (f.take off ++ bs).length = off + bs.length := by
    simp [List.length_append, htake]
  by_cases h2 : i < off + bs.length
  · rw [List.getD_append _ _ _ _ (by omega)]
    by_cases h1 : i < off
    · rw [List.getD_append _ _ _ _ (by omega), if_neg (by omega)]
      rw [List.getD_eq_getElem?_getD, List.getD_eq_getElem?_getD,
        List.getElem?_take_of_lt h1]
    · rw [List.getD_append_right _ _ _ _ (by omega), htake, if_pos ⟨by omega, h2⟩]
  · rw [List.getD_append_right _ _ _ _ (by omega), if_neg (by omega)]
    rw [List.getD_eq_getElem?_getD, List.getD_eq_getElem?_getD, List.getElem?_drop]
    have hidx : off + bs.length + (i - (f.take off ++ bs).length) = i := by
      rw [hlen2]; omega
    rw [hidx]

theorem read_int_data_congr (f g : List ℕ) (pos pos2 n : ℕ)
    (h : ∀ i, i < n → checked_fgetc f (pos + i) = checked_fgetc g (pos2 + i)) :
    read_int_data f pos n = read_int_data g pos2 n := by
  induction n generalizing pos pos2 with
  | zero => rfl
  | succ n ih =>
    simp only [read_int_data]
    have h0 : checked_fgetc f pos = checked_fgetc g pos2 := by simpa using h 0 (by omega)
    have hrest : read_int_data f (pos + 1) n = read_int_data g (pos2 + 1) n :=
      ih (pos + 1) (pos2 + 1) (fun i hi => by
        have hh := h (i + 1) (by omega)
        have e1 : pos + (i + 1) = pos + 1 + i := by omega
        have e2 : pos2 + (i + 1) = pos2 + 1 + i := by omega
        rwa [e1, e2] at hh)
    rw [h0, hrest]

theorem read_write_bytes_at_before (f : List ℕ) (off : ℕ) (bs : List ℕ)
    (hoff : off ≤ f.length) (pos n : ℕ) (h : pos + n ≤ off) :
    read_int_data (write_bytes_at f off bs) pos n = read_int_data f pos n :=
  read_int_data_congr _ _ _ _ _ (fun i hi => by
    rw [checked_fgetc_write_bytes_at f off bs hoff, if_neg (by omega)])

theorem read_write_bytes_at_after (f : List ℕ) (off : ℕ) (bs : List ℕ)
    (hoff : off ≤ f.length) (pos n : ℕ) (h : off + bs.length ≤ pos) :
    read_int_data (write_bytes_at f off bs) pos n = read_int_data f pos n :=
  read_int_data_congr _ _ _ _ _ (fun i hi => by
    rw [checked_fgetc_write_bytes_at f off bs hoff, if_neg (by omega)])

theorem read_write_bytes_at_self (f : List ℕ) (off : ℕ) (bs : List ℕ)
    (hoff : off ≤ f.length) :
    read_int_data (write_bytes_at f off bs) off bs.length =
      read_int_data bs 0 bs.length :=
  read_int_data_congr _ _ _ _ _ (fun i hi => by
    rw [checked_fgetc_write_bytes_at f off bs hoff, if_pos ⟨by omega, by omega⟩]
    congr 1
    omega)

theorem read_int_data_append_skip (a t : List ℕ) (pos n : ℕ) (h : a.length ≤ pos) :
    read_int_data (a ++ t) pos n = read_int_data t (pos - a.length) n :=
  read_int_data_congr _ _ _ _ _ (fun i hi => by
    unfold checked_fgetc
    rw [List.getD_append_right _ _ _ _ (by omega)]
    congr 1
    omega)

theorem read_int_data_append_here (a t : List ℕ) (pos n : ℕ) (h : pos + n ≤ a.length) :
    read_int_data (a ++ t) pos n = read_int_data a pos n :=
  read_int_data_congr _ _ _ _ _ (fun i hi => by
    unfold checked_fgetc
    rw [List.getD_append _ _ _ _ (by omega)])

theorem fread_bytes_congr (f g : List ℕ) (pos pos2 n : ℕ)
    (h : ∀ i, i < n → checked_fgetc f (pos + i) = checked_fgetc g (pos2 + i)) :
    fread_bytes f pos n = fread_bytes g pos2 n := by
  unfold fread_bytes
  exact List.map_congr_left (fun i hi => h i (List.mem_range.mp hi))

theorem fread_write_bytes_at_before (f : List ℕ) (off : ℕ) (bs : List ℕ)
    (hoff : off ≤ f.length) (pos n : ℕ) (h : pos + n ≤ off) :
    fread_bytes (write_bytes_at f off bs) pos n = fread_bytes f pos n :=
  fread_bytes_congr _ _ _ _ _ (fun i hi => by
    rw [checked_fgetc_write_bytes_at f off bs hoff, if_neg (by omega)])

theorem fread_write_bytes_at_after (f : List ℕ) (off : ℕ) (bs : List ℕ)
    (hoff : off ≤ f.length) (pos n : ℕ) (h : off + bs.length ≤ pos) :
    fread_bytes (write_bytes_at f off bs) pos n = fread_bytes f pos n :=
  fread_bytes_congr _ _ _ _ _ (fun i hi => by
    rw [checked_fgetc_write_bytes_at f off bs hoff, if_neg (by omega)])

theorem fread_write_bytes_at_self (f : List ℕ) (off : ℕ) (bs : List ℕ)
    (hoff : off ≤ f.length) :
    fread_bytes (write_bytes_at f off bs) off bs.length = fread_bytes bs 0 bs.length :=
  fread_bytes_congr _ _ _ _ _ (fun i hi => by
    rw [checked_fgetc_write_bytes_at f off bs hoff, if_pos ⟨by omega, by omega⟩]
    congr 1
    omega)

theorem fread_bytes_append_skip (a t : List ℕ) (pos n : ℕ) (h : a.length ≤ pos) :
    fread_bytes (a ++ t) pos n = fread_bytes t (pos - a.length) n :=
  fread_bytes_congr _ _ _ _ _ (fun i hi => by
    unfold checked_fgetc
    rw [List.getD_append_right _ _ _ _ (by omega)]
    congr 1
    omega)

theorem fread_bytes_append_here (a t : List ℕ) (pos n : ℕ) (h : pos + n ≤ a.length) :
    fread_bytes (a ++ t) pos n = fread_bytes a pos n :=
  fread_bytes_congr _ _ _ _ _ (fun i hi => by
    unfold checked_fgetc
    rw [List.getD_append _ _ _ _ (by omega)])

theorem fread_bytes_all (x : List ℕ) : fread_bytes x 0 x.length = x := by
  apply List.ext_getElem (by simp [fread_bytes])
  intro i h1 h2
  simp [fread_bytes, checked_fgetc, List.getD_eq_getElem?_getD, List.getElem?_eq_getElem h2]

theorem fread_bytes_prefix (x t : List ℕ) : fread_bytes (x ++ t) 0 x.length = x := by
  rw [fread_bytes_append_here _ _ _ _ (by omega), fread_bytes_all]

theorem create_shape (r ds : ℕ) (p : List ℕ) :
    wav_header r ds ++ p =
      CHUNK_ID ++ (write_int_data ((36 + ds) % 2 ^ 32) 4 ++ (wav_mid r ++
        (write_int_data ds 4 ++ p))) := by
  simp [wav_header, List.append_assoc]

theorem write_bytes_at_zero_exact (x t bs : List ℕ) (h : bs.length = x.length) :
    write_bytes_at (x ++ t) 0 bs = bs ++ t := by
  unfold write_bytes_at
  rw [List.take_zero, Nat.zero_sub, List.replicate_zero, Nat.zero_add, h,
    List.drop_left]
  simp

theorem write_bytes_at_shift (a t : List ℕ) (off : ℕ) (bs : List ℕ)
    (h : a.length ≤ off) :
    write_bytes_at (a ++ t) off bs = a ++ write_bytes_at t (off - a.length) bs := by
  unfold write_bytes_at
  rw [List.take_append_eq_append_take, List.take_all_of_le h,
    List.drop_append_eq_append_drop, List.drop_eq_nil_of_le (by omega),
    List.length_append]
  have e1 : off - (a.length + t.length) = off - a.length - t.length := by omega
  have e2 : off + bs.length - a.length = off - a.length + bs.length := by omega
  rw [e1, e2]
  simp [List.append_assoc]

theorem write_bytes_at_middle (a x t bs : List ℕ) (off : ℕ) (hoff : off = a.length)
    (hx : bs.length = x.length) :
    write_bytes_at (a ++ (x ++ t)) off bs = a ++ (bs ++ t) := by
  subst hoff
  rw [write_bytes_at_shift a (x ++ t) a.length bs (le_refl _), Nat.sub_self,
    write_bytes_at_zero_exact x t bs hx]

theorem write_bytes_at_append_end (f bs : List ℕ) :
    write_bytes_at f f.length bs = f ++ bs := by
  unfold write_bytes_at
  rw [List.take_of_length_le (le_refl _), Nat.sub_self, List.replicate_zero,
    List.drop_eq_nil_of_le (by omega)]
  simp

theorem read_write_int_data4 (v : ℕ) :
    read_int_data (write_int_data v 4) 0 4 = v % 2 ^ 32 := by
  rw [read_write_int_data]

theorem read_write_int_data2 (v : ℕ) :
    read_int_data (write_int_data v 2) 0 2 = v % 2 ^ 16 := by
  rw [read_write_int_data]

theorem wav_file_read (r ds : ℕ) (p : List ℕ) (pos n : ℕ) (h : pos + n ≤ 44) :
    read_int_data (wav_header r ds ++ p) pos n = read_int_data (wav_header r ds) pos n :=
  read_int_data_append_here _ _ _ _ (by rw [length_wav_header]; omega)

theorem wav_file_fread (r ds : ℕ) (p : List ℕ) (pos n : ℕ) (h : pos + n ≤ 44) :
    fread_bytes (wav_header r ds ++ p) pos n = fread_bytes (wav_header r ds) pos n :=
  fread_bytes_append_here _ _ _ _ (by rw [length_wav_header]; omega)


theorem read_int_data_skip_to (a t : List ℕ) (pos pos2 n : ℕ)
    (h : pos = a.length + pos2) :
    read_int_data (a ++ t) pos n = read_int_data t pos2 n := by
  rw [read_int_data_append_skip a t pos n (by omega)]
  congr 1
  omega

-- Reads of the constant header fields of a `wav_header`-shaped file reduce by
-- computation: the list spine down to the payload is concrete.
theorem wav_fread_chunk_id (r ds : ℕ) (p : List ℕ) :
    fread_bytes (wav_header r ds ++ p) 0 4 = CHUNK_ID := rfl

theorem wav_fread_format (r ds : ℕ) (p : List ℕ) :
    fread_bytes (wav_header r ds ++ p) 8 4 = FORMAT := rfl

theorem wav_fread_s1id (r ds : ℕ) (p : List ℕ) :
    fread_bytes (wav_header r ds ++ p) 12 4 = SUBCHUNK1_ID := rfl

theorem wav_read_s1size (r ds : ℕ) (p : List ℕ) :
    read_int_data (wav_header r ds ++ p) 16 4 = 16 := rfl

theorem wav_read_audio (r ds : ℕ) (p : List ℕ) :
    read_int_data (wav_header r ds ++ p) 20 2 = 1 := rfl

theorem wav_read_channels (r ds : ℕ) (p : List ℕ) :
    read_int_data (wav_header r ds ++ p) 22 2 = 1 := rfl

theorem wav_read_block (r ds : ℕ) (p : List ℕ) :
    read_int_data (wav_header r ds ++ p) 32 2 = 2 := rfl

theorem wav_read_bits (r ds : ℕ) (p : List ℕ) :
    read_int_data (wav_header r ds ++ p) 34 2 = 16 := rfl

theorem wav_fread_s2id (r ds : ℕ) (p : List ℕ) :
    fread_bytes (wav_header r ds ++ p) 36 4 = SUBCHUNK2_ID := rfl

theorem wav_read_chunk_size (r ds : ℕ) (p : List ℕ) :
    read_int_data (wav_header r ds ++ p) 4 4 = (36 + ds) % 2 ^ 32 := by
  rw [wav_file_read r ds p 4 4 (by omega)]
  unfold wav_header
  rw [read_int_data_skip_to CHUNK_ID _ 4 0 4 (by norm_num [CHUNK_ID])]
  rw [read_int_data_append_here (write_int_data ((36 + ds) % 2 ^ 32) 4) _ 0 4
    (by simp [length_write_int_data])]
  rw [read_write_int_data4]
  omega

theorem wav_read_rate (r ds : ℕ) (p : List ℕ) :
    read_int_data (wav_header r ds ++ p) 24 4 = r % 2 ^ 32 := by
  rw [wav_file_read r ds p 24 4 (by omega)]
  unfold wav_header
  rw [read_int_data_skip_to CHUNK_ID _ 24 20 4 (by norm_num [CHUNK_ID])]
  rw [read_int_data_skip_to (write_int_data ((36 + ds) % 2 ^ 32) 4) _ 20 16 4
    (by simp [length_write_int_data])]
  rw [read_int_data_append_here (wav_mid r) _ 16 4 (by simp [length_wav_mid])]
  unfold wav_mid
  rw [read_int_data_skip_to FORMAT _ 16 12 4 (by norm_num [FORMAT])]
  rw [read_int_data_skip_to SUBCHUNK1_ID _ 12 8 4 (by norm_num [SUBCHUNK1_ID])]
  rw [read_int_data_skip_to (write_int_data 16 4) _ 8 4 4
    (by simp [length_write_int_data])]
  rw [read_int_data_skip_to (write_int_data 1 2) _ 4 2 4
    (by simp [length_write_int_data])]
  rw [read_int_data_skip_to (write_int_data 1 2) _ 2 0 4
    (by simp [length_write_int_data])]
  rw [read_int_data_append_here (write_int_data (r % 2 ^ 32) 4) _ 0 4
    (by simp [length_write_int_data])]
  rw [read_write_int_data4]
  omega

theorem wav_read_byte_rate (r ds : ℕ) (p : List ℕ) :
    read_int_data (wav_header r ds ++ p) 28 4 = BYTE_RATE r := by
  rw [wav_file_read r ds p 28 4 (by omega)]
  unfold wav_header
  rw [read_int_data_skip_to CHUNK_ID _ 28 24 4 (by norm_num [CHUNK_ID])]
  rw [read_int_data_skip_to (write_int_data ((36 + ds) % 2 ^ 32) 4) _ 24 20 4
    (by simp [length_write_int_data])]
  rw [read_int_data_append_here (wav_mid r) _ 20 4 (by simp [length_wav_mid])]
  unfold wav_mid
  rw [read_int_data_skip_to FORMAT _ 20 16 4 (by norm_num [FORMAT])]
  rw [read_int_data_skip_to SUBCHUNK1_ID _ 16 12 4 (by norm_num [SUBCHUNK1_ID])]
  rw [read_int_data_skip_to (write_int_data 16 4) _ 12 8 4
    (by simp [length_write_int_data])]
  rw [read_int_data_skip_to (write_int_data 1 2) _ 8 6 4
    (by simp [length_write_int_data])]
  rw [read_int_data_skip_to (write_int_data 1 2) _ 6 4 4
    (by simp [length_write_int_data])]
  rw [read_int_data_skip_to (write_int_data (r % 2 ^ 32) 4) _ 4 0 4
    (by simp [length_write_int_data])]
  rw [read_int_data_append_here (write_int_data (BYTE_RATE r) 4) _ 0 4
    (by simp [length_write_int_data])]
  rw [read_write_int_data4]
  exact Nat.mod_eq_of_lt (lt_trans (BYTE_RATE_lt r) (by norm_num))

theorem wav_read_subchunk2_size (r ds : ℕ) (p : List ℕ) :
    read_int_data (wav_header r ds ++ p) 40 4 = ds % 2 ^ 32 := by
  rw [wav_file_read r ds p 40 4 (by omega)]
  unfold wav_header
  rw [read_int_data_skip_to CHUNK_ID _ 40 36 4 (by norm_num [CHUNK_ID])]
  rw [read_int_data_skip_to (write_int_data ((36 + ds) % 2 ^ 32) 4) _ 36 32 4
    (by simp [length_write_int_data])]
  rw [read_int_data_skip_to (wav_mid r) _ 32 0 4 (by simp [length_wav_mid])]
  rw [read_write_int_data4]

theorem except_bind_ok {α β : Type} (a : α) (g : α → Except HeaderError β) :
    (Except.ok a >>= g) = g a := rfl

theorem except_bind_error {α β : Type} (e : HeaderError)
    (g : α → Except HeaderError β) :
    ((Except.error e : Except HeaderError α) >>= g) = Except.error e := rfl

theorem except_pure {β : Type} (b : β) :
    (pure b : Except HeaderError β) = Except.ok b := rfl

theorem verify_str_ok (g : List ℕ) (name : String) (field : List ℕ) (off sz : ℕ)
    (h1 : off < g.length) (h2 : fread_bytes g off sz = field) :
    verify_string_header g name field off sz = Except.ok () := by
  unfold verify_string_header
  rw [if_neg (by omega), if_pos h2]

theorem verify_int_ok (g : List ℕ) (name : String) (field : ℕ) (off sz : ℕ)
    (h : read_int_data g off sz = field) :
    verify_int_header g name field off sz = Except.ok () := by
  unfold verify_int_header
  rw [if_pos h.symm]

theorem write_bytes_at_shift_to (a t : List ℕ) (off off2 : ℕ) (bs : List ℕ)
    (h : off = a.length + off2) :
    write_bytes_at (a ++ t) off bs = a ++ write_bytes_at t off2 bs := by
  subst h
  rw [write_bytes_at_shift a t _ bs (by omega)]
  have e : a.length + off2 - a.length = off2 := by omega
  rw [e]

theorem append_sound_file_wav (r ds : ℕ) (p : List ℕ) (S2 : List Int)
    (hds : 36 + ds < 2 ^ 32) :
    append_sound_file (wav_header r ds ++ p) S2 r =
      Except.ok (CHUNK_ID ++
        (write_int_data ((ds + subchunk2_size_of S2.length + 36) % 2 ^ 32) 4 ++
        (wav_mid r ++ (write_int_data ((subchunk2_size_of S2.length + ds) % 2 ^ 32) 4 ++
          write_bytes_at p ds (S2.flatMap byte16))))) := by
  have hlen : (0 : ℕ) < (wav_header r ds ++ p).length := by
    rw [List.length_append, length_wav_header]; omega
  have hlen8 : (8 : ℕ) < (wav_header r ds ++ p).length := by
    rw [List.length_append, length_wav_header]; omega
  have hlen12 : (12 : ℕ) < (wav_header r ds ++ p).length := by
    rw [List.length_append, length_wav_header]; omega
  have hlen36 : (36 : ℕ) < (wav_header r ds ++ p).length := by
    rw [List.length_append, length_wav_header]; omega
  have hprev : (read_int_data (wav_header r ds ++ p) 4 4 + 2 ^ 32 - 36) % 2 ^ 32 = ds := by
    rw [wav_read_chunk_size]
    omega
  have v1 := verify_str_ok (wav_header r ds ++ p) "Chunk ID" CHUNK_ID 0 4 hlen
    (wav_fread_chunk_id r ds p)
  have v2 := verify_str_ok (wav_header r ds ++ p) "Format" FORMAT 8 4 hlen8
    (wav_fread_format r ds p)
  have v3 := verify_str_ok (wav_header r ds ++ p) "Subchunk 1 ID" SUBCHUNK1_ID 12 4
    hlen12 (wav_fread_s1id r ds p)
  have v4 := verify_int_ok (wav_header r ds ++ p) "Subchunk 1 size" 16 16 4
    (wav_read_s1size r ds p)
  have v5 := verify_int_ok (wav_header r ds ++ p) "Audio format" 1 20 2
    (wav_read_audio r ds p)
  have v6 := verify_int_ok (wav_header r ds ++ p) "Number of channels" 1 22 2
    (wav_read_channels r ds p)
  have v7 := verify_int_ok (wav_header r ds ++ p) "Sample rate" (r % 2 ^ 32) 24 4
    (wav_read_rate r ds p)
  have v8 := verify_int_ok (wav_header r ds ++ p) "Byte rate" (BYTE_RATE r) 28 4
    (wav_read_byte_rate r ds p)
  have v9 := verify_int_ok (wav_header r ds ++ p) "Block align" 2 32 2
    (wav_read_block r ds p)
  have v10 := verify_int_ok (wav_header r ds ++ p) "Bits per sample" 16 34 2
    (wav_read_bits r ds p)
  have v11 := verify_str_ok (wav_header r ds ++ p) "Subchunk 2 ID" SUBCHUNK2_ID 36 4
    hlen36 (wav_fread_s2id r ds p)
  have v12 : verify_int_header (wav_header r ds ++ p) "Subchunk 2 size" ds 40 4 =
      Except.ok () :=
    verify_int_ok _ _ _ 40 4 (by rw [wav_read_subchunk2_size]; omega)
  simp only [append_sound_file, hprev, v1, v2, v3, v4, v5, v6, v7, v8, v9, v10, v11,
    v12, except_bind_ok, except_pure, Except.ok.injEq]
  rw [create_shape]
  rw [write_bytes_at_middle CHUNK_ID (write_int_data ((36 + ds) % 2 ^ 32) 4) _ _ 4 rfl
    (by simp [length_write_int_data])]
  rw [write_bytes_at_shift_to CHUNK_ID _ 40 36 _ (by norm_num [CHUNK_ID])]
  rw [write_bytes_at_shift_to
    (write_int_data ((ds + subchunk2_size_of S2.length + 36) % 2 ^ 32) 4) _ 36 32 _
    (by simp [length_write_int_data])]
  rw [write_bytes_at_shift_to (wav_mid r) _ 32 0 _ (by simp [length_wav_mid])]
  rw [write_bytes_at_zero_exact (write_int_data ds 4) p _
    (by simp [length_write_int_data])]
  rw [write_bytes_at_shift_to CHUNK_ID _ (44 + ds) (40 + ds) _
    (by simp only [CHUNK_ID, List.length_cons, List.length_nil]; omega)]
  rw [write_bytes_at_shift_to
    (write_int_data ((ds + subchunk2_size_of S2.length + 36) % 2 ^ 32) 4) _
    (40 + ds) (36 + ds) _ (by simp [length_write_int_data]; omega)]
  rw [write_bytes_at_shift_to (wav_mid r) _ (36 + ds) (4 + ds) _
    (by simp [length_wav_mid]; omega)]
  rw [write_bytes_at_shift_to
    (write_int_data ((subchunk2_size_of S2.length + ds) % 2 ^ 32) 4) _
    (4 + ds) ds _ (by simp [length_write_int_data])]

/-- Claim C1 (amended): creating a container from `S1` at rate `r` and then
appending `S2` at rate `r` produces a file byte-identical to creating a single
container from `S1 ++ S2` at rate `r`, provided the total sample count fits
the 32-bit size arithmetic of the header (`|S1| + |S2| < 2^28`, i.e. data
sizes below `2^29` bytes — beyond that the `uint32_t` size fields wrap and the
equality fails, see the counterexample). -/
theorem c1_append_eq_create (S1 S2 : List Int) (r : ℕ)
    (h : S1.length + S2.length < 2 ^ 28) :
    append_sound_file (create_sound_file S1 r) S2 r =
      Except.ok (create_sound_file (S1 ++ S2) r) := by
  unfold create_sound_file
  rw [append_sound_file_wav r _ _ S2 (by have := subchunk2_size_of_lt S1.length; omega)]
  rw [create_shape]
  have hds1 : subchunk2_size_of S1.length = 2 * S1.length :=
    subchunk2_size_of_eq _ (by omega)
  have hadd : subchunk2_size_of S2.length = 2 * S2.length :=
    subchunk2_size_of_eq _ (by omega)
  have hds12 : subchunk2_size_of (S1 ++ S2).length = 2 * (S1.length + S2.length) := by
    rw [List.length_append, subchunk2_size_of_eq _ (by omega)]
  rw [hds1, hadd, hds12]
  have hwp : write_bytes_at (S1.flatMap byte16) (2 * S1.length) (S2.flatMap byte16) =
      (S1 ++ S2).flatMap byte16 := by
    have hl : 2 * S1.length = (S1.flatMap byte16).length := (length_flatMap_byte16 S1).symm
    rw [hl, write_bytes_at_append_end, List.flatMap_append]
  rw [hwp]
  have e1 : (2 * S1.length + 2 * S2.length + 36) % 2 ^ 32 =
      (36 + 2 * (S1.length + S2.length)) % 2 ^ 32 := by
    congr 1
    ring
  have e2 : (2 * S2.length + 2 * S1.length) % 2 ^ 32 = 2 * (S1.length + S2.length) := by
    rw [Nat.mod_eq_of_lt (by omega)]
    ring
  rw [e1, e2]

theorem c1_witness :
    (([(5 : Int), -3].length + [(7 : Int)].length < 2 ^ 28) ∧ True) ∧
      append_sound_file (create_sound_file [5, -3] 8000) [7] 8000 =
        Except.ok (create_sound_file ([5, -3] ++ [7]) 8000) :=
  ⟨⟨by norm_num, trivial⟩, c1_append_eq_create [5, -3] [7] 8000 (by norm_num)⟩

/-- Claim C1, counterexample to the unrestricted statement: with
`S1 = 2^28` zero samples the `uint32_t` computation
`data_length * NUM_CHANNELS * BITS_PER_SAMPLE / 8` wraps to 0, so the created
file's size fields record 0 data bytes; appending `[1]` then overwrites the
start of the old data instead of extending the file, and the result is not
byte-identical to creating `S1 ++ [1]` in one step (the lengths already
differ). -/
theorem append_create_wrapped_ne (S1 : List Int) (r : ℕ)
    (hds : subchunk2_size_of S1.length = 0) (hpos : 0 < S1.length) :
    append_sound_file (create_sound_file S1 r) [1] r ≠
      Except.ok (create_sound_file (S1 ++ [1]) r) := by
  intro hEq
  unfold create_sound_file at hEq
  rw [hds] at hEq
  rw [append_sound_file_wav r 0 _ [1] (by norm_num)] at hEq
  simp only [Except.ok.injEq] at hEq
  have hlen := congrArg List.length hEq
  simp only [List.length_append, CHUNK_ID, List.length_cons, List.length_nil,
    length_write_int_data, length_wav_mid, length_wav_header, length_write_bytes_at,
    length_flatMap_byte16] at hlen
  omega

theorem c1_counterexample :
    append_sound_file (create_sound_file (List.replicate (2 ^ 28) 0) 8000) [1] 8000 ≠
      Except.ok (create_sound_file (List.replicate (2 ^ 28) 0 ++ [1]) 8000) :=
  append_create_wrapped_ne (List.replicate (2 ^ 28) 0) 8000
    (by rw [List.length_replicate]; norm_num [subchunk2_size_of])
    (by rw [List.length_replicate]; norm_num)

/-- The byte stream the spec's §6 layout table (and claim C3) describes for the
create path, written with the spec's plain values: Chunk Size `36 + 2·n`,
Byte Rate `sample_rate · 2`, Subchunk 2 Size `n · 2` — no `uint32_t` wrap.
Reference definition for the refinement check against `create_sound_file`. -/
def create_sound_file_spec (data : List Int) (sample_rate : ℕ) : List ℕ :=
  CHUNK_ID ++ (write_int_data (36 + 2 * data.length) 4 ++ (FORMAT ++ (SUBCHUNK1_ID ++
  (write_int_data 16 4 ++ (write_int_data 1 2 ++ (write_int_data 1 2 ++
  (write_int_data sample_rate 4 ++ (write_int_data (sample_rate * 2) 4 ++
  (write_int_data 2 2 ++ (write_int_data 16 2 ++ (SUBCHUNK2_ID ++
  (write_int_data (2 * data.length) 4 ++ data.flatMap byte16))))))))))))

/-- Claim C3, counterexample: at `sample_rate = 2^28` the Byte Rate field is
computed in `uint32_t` as `(2^28 · 16) % 2^32 / 8 = 0`, not the claimed
`sample_rate · 2 = 2^29`, so already for the empty sample sequence the emitted
bytes differ from the claimed layout (at offsets 28–31). -/
theorem c3_counterexample :
    create_sound_file [] (2 ^ 28) ≠ create_sound_file_spec [] (2 ^ 28) := by
  decide

/-- Claim C3 (amended): for every sample sequence of fewer than `2^28` samples
and every `sample_rate < 2^28`, the create path emits exactly the 44-byte
header followed by the payload as claimed: "RIFF", LE32 `36 + 2·n`, "WAVE",
"fmt ", LE32 16, LE16 1, LE16 1, LE32 rate, LE32 `rate·2`, LE16 2, LE16 16,
"data", LE32 `2·n`, then each sample as 2-byte little-endian two's complement.
(For rates or sample counts at `2^28` and above, the `uint32_t` products wrap
and the Byte Rate / size fields hold the wrapped values instead.) -/
theorem c3_create_layout (data : List Int) (r : ℕ) (hr : r < 2 ^ 28)
    (hn : data.length < 2 ^ 28) :
    create_sound_file data r = create_sound_file_spec data r := by
  unfold create_sound_file create_sound_file_spec wav_header wav_mid
  rw [subchunk2_size_of_eq _ hn]
  have h1 : (36 + 2 * data.length) % 2 ^ 32 = 36 + 2 * data.length :=
    Nat.mod_eq_of_lt (by omega)
  have h2 : r % 2 ^ 32 = r := Nat.mod_eq_of_lt (by omega)
  have h3 : BYTE_RATE r = r * 2 := by unfold BYTE_RATE; omega
  rw [h1, h2, h3]
  simp [List.append_assoc]

theorem c3_witness :
    ((8000 : ℕ) < 2 ^ 28 ∧ [(5 : Int), -3].length < 2 ^ 28) ∧
      create_sound_file [5, -3] 8000 = create_sound_file_spec [5, -3] 8000 :=
  ⟨⟨by norm_num, by norm_num⟩,
    c3_create_layout [5, -3] 8000 (by norm_num) (by norm_num)⟩

/-- Claim C5, counterexample: the scenario expects 800 samples, but
`get_num_samples` returns `(8000·100)/1000 + 1 = 801` (and consequently Chunk
Size 1638 and Subchunk 2 Size 1602, not 1636 and 1600). -/
theorem c5_counterexample : get_num_samples 100 8000 ≠ some 800 := by decide

/-- Claim C5 (amended): with sample_rate 8000, duration 100 ms, the single
frequency 1, amplitude 100 and any wave function vanishing at sample index 0
(the sine wave does: `sin 0 = 0`): the computed number of samples is 801 (not
the spec's 800 — the code adds one to the truncated quotient), hence the
created file's Chunk Size field holds `36 + 1602 = 1638`, its Subchunk 2 Size
field holds `1602`, and the first sample is `(int16_t)0.0 = 0`. -/
theorem c5_concrete_scenario (w : ℚ → ℕ → ℚ) (hw : w 1 0 = 0) :
    get_num_samples 100 8000 = some 801 ∧
      read_int_data
        (create_sound_file (create_samples (fun _ => 1) 1 100 801 w) 8000) 4 4 = 1638 ∧
      read_int_data
        (create_sound_file (create_samples (fun _ => 1) 1 100 801 w) 8000) 40 4 = 1602 ∧
      (create_samples (fun _ => 1) 1 100 801 w).getD 0 5 = 0 := by
  have hlen : (create_samples (fun _ => (1 : ℚ)) 1 100 801 w).length = 801 := by
    simp [create_samples]
  have hds : subchunk2_size_of (create_samples (fun _ => (1 : ℚ)) 1 100 801 w).length
      = 1602 := by
    rw [hlen, subchunk2_size_of_eq _ (by norm_num)]
  have hmix : mix_sample (fun _ => (1 : ℚ)) 1 100 w 0 = 0 := by
    simp [mix_sample, List.range_succ, hw]
  refine ⟨by decide, ?_, ?_, ?_⟩
  · unfold create_sound_file
    rw [hds, wav_read_chunk_size]
    norm_num
  · unfold create_sound_file
    rw [hds, wav_read_subchunk2_size]
    norm_num
  · rw [create_samples, List.getD_eq_getElem _ _ (by simp)]
    simp only [List.getElem_map, List.getElem_range]
    rw [hmix]
    norm_num [int16cast, trunc_to_int]

theorem c5_witness :
    ((fun (_ : ℚ) (_ : ℕ) => (0 : ℚ)) 1 0 = 0) ∧
      (get_num_samples 100 8000 = some 801 ∧
        read_int_data
          (create_sound_file
            (create_samples (fun _ => 1) 1 100 801 (fun _ _ => 0)) 8000) 4 4 = 1638 ∧
        read_int_data
          (create_sound_file
            (create_samples (fun _ => 1) 1 100 801 (fun _ _ => 0)) 8000) 40 4 = 1602 ∧
        (create_samples (fun _ => 1) 1 100 801 (fun _ _ => 0)).getD 0 5 = 0) :=
  ⟨rfl, c5_concrete_scenario (fun _ _ => 0) rfl⟩

/-- A fixed header field verified by `append_sound_file`: its printed name,
byte offset and size, whether it is a string field (a 4-byte tag compared by
`strncmp`) or an integer field (compared after a little-endian read), the
expected integer value (0 for string fields), and its expected byte
encoding in the file. -/
structure FieldSpec where
  name : String
  off : ℕ
  size : ℕ
  isStr : Bool
  value : ℕ
  bytes : List ℕ
  deriving DecidableEq, Repr

/-- The eleven fixed header fields, in the order `append_sound_file` verifies
them.  The two size fields (offsets 4 and 40) are computed from the data, not
fixed, and are therefore not listed. -/
def fixedFields (r : ℕ) : List FieldSpec :=
  [⟨"Chunk ID", 0, 4, true, 0, CHUNK_ID⟩,
   ⟨"Format", 8, 4, true, 0, FORMAT⟩,
   ⟨"Subchunk 1 ID", 12, 4, true, 0, SUBCHUNK1_ID⟩,
   ⟨"Subchunk 1 size", 16, 4, false, 16, write_int_data 16 4⟩,
   ⟨"Audio format", 20, 2, false, 1, write_int_data 1 2⟩,
   ⟨"Number of channels", 22, 2, false, 1, write_int_data 1 2⟩,
   ⟨"Sample rate", 24, 4, false, r % 2 ^ 32, write_int_data (r % 2 ^ 32) 4⟩,
   ⟨"Byte rate", 28, 4, false, BYTE_RATE r, write_int_data (BYTE_RATE r) 4⟩,
   ⟨"Block align", 32, 2, false, 2, write_int_data 2 2⟩,
   ⟨"Bits per sample", 34, 2, false, 16, write_int_data 16 2⟩,
   ⟨"Subchunk 2 ID", 36, 4, true, 0, SUBCHUNK2_ID⟩]

/-- The corruption error claim C2 predicts when the field `fs` has been
overwritten with the bytes `bs`: it names the field and carries the expected
value and the value actually found in the file. -/
def FieldSpec.err (fs : FieldSpec) (bs : List ℕ) : HeaderError :=
  cond fs.isStr (HeaderError.strField fs.name fs.bytes bs)
    (HeaderError.intField fs.name fs.value (read_int_data bs 0 fs.size))

theorem eq_write_int_data_of_read (bs : List ℕ) (hb : ∀ b ∈ bs, b < 256) :
    write_int_data (read_int_data bs 0 bs.length) bs.length = bs := by
  induction bs with
  | nil => rfl
  | cons b t ih =>
    have hb0 : b < 256 := hb b (by simp)
    have hcons : read_int_data (b :: t) 0 (t.length + 1) =
        b + 256 * read_int_data t 0 t.length := by
      simp only [read_int_data, checked_fgetc, List.getD_cons_zero]
      rw [show (0 : ℕ) + 1 = 1 from rfl,
        show (1 : ℕ) = 0 + 1 from rfl, read_int_data_cons]
    simp only [List.length_cons, hcons, write_int_data]
    have hmod : (b + 256 * read_int_data t 0 t.length) % 256 = b := by omega
    have hdiv : (b + 256 * read_int_data t 0 t.length) / 256 =
        read_int_data t 0 t.length := by omega
    rw [hmod, hdiv, ih (fun x hx => hb x (by simp [hx]))]

theorem eq_write_int_data_of_read_n (bs : List ℕ) (n : ℕ) (hn : bs.length = n)
    (hb : ∀ b ∈ bs, b < 256) :
    write_int_data (read_int_data bs 0 n) n = bs := by
  subst hn
  exact eq_write_int_data_of_read bs hb

theorem read_write_bytes_at_self_n (f : List ℕ) (off n : ℕ) (bs : List ℕ)
    (hoff : off ≤ f.length) (hn : bs.length = n) :
    read_int_data (write_bytes_at f off bs) off n = read_int_data bs 0 n := by
  subst hn
  exact read_write_bytes_at_self f off bs hoff

theorem fread_write_bytes_at_self_n (f : List ℕ) (off n : ℕ) (bs : List ℕ)
    (hoff : off ≤ f.length) (hn : bs.length = n) :
    fread_bytes (write_bytes_at f off bs) off n = bs := by
  subst hn
  rw [fread_write_bytes_at_self f off bs hoff, fread_bytes_all]

/-- Claim C8 names a code bug: `checked_fgetc` and `checked_fseek` print their
diagnostics but — unlike `checked_fputc` and `checked_fprintf`, and contrary
to their own doc comments ("prints an error message and exits the program") —
contain no `exit(1)`.  Appending to a 4-byte file holding just "RIFF": the
four reads of the Chunk Size field all hit EOF and fail, yet the run
continues — `checked_fgetc` returns `(uint8_t)EOF = 255` four times, so the
field reads as `2^32 - 1`, the Chunk ID verification is still performed (and
passes), and the run only terminates at the Format `fread`. -/
theorem c8_failed_read_continues :
    read_int_data [82, 73, 70, 70] 4 4 = 4294967295 ∧
      checked_fgetc [] 0 = 255 ∧
      append_sound_file [82, 73, 70, 70] [] 8000 = Except.error HeaderError.readFail :=
  ⟨by decide, rfl, by decide⟩

/-- Claim C2: take a file produced by `create_sound_file` and overwrite the
bytes of exactly one fixed header field with different bytes; then
`append_sound_file` at the same rate fails with the corruption error naming
that field, its expected value, and the value actually found — and, since in
the model (as in the source) every write is sequenced after all twelve
verifications and `Except.error` models `exit(1)`, the file's bytes are left
unchanged. -/
theorem c2_single_field_corruption (S S2 : List Int) (r : ℕ) (fs : FieldSpec)
    (hfs : fs ∈ fixedFields r) (bs : List ℕ) (hlen : bs.length = fs.size)
    (hbytes : ∀ b ∈ bs, b < 256) (hne : bs ≠ fs.bytes) :
    append_sound_file (write_bytes_at (create_sound_file S r) fs.off bs) S2 r =
      Except.error (fs.err bs) := by
  obtain ⟨ds, hds, p, hcs⟩ : ∃ ds, ds < 2 ^ 29 ∧ ∃ p,
      create_sound_file S r = wav_header r ds ++ p :=
    ⟨subchunk2_size_of S.length, subchunk2_size_of_lt _, S.flatMap byte16, rfl⟩
  rw [hcs]
  clear hcs
  have hfl : (wav_header r ds ++ p).length = 44 + p.length := by
    rw [List.length_append, length_wav_header]
  fin_cases hfs
  · -- Chunk ID, string at offset 0
    dsimp only [FieldSpec.err] at hlen hne ⊢
    have hbl : bs.length = 4 := hlen
    have hwb : (44 : ℕ) ≤ (write_bytes_at (wav_header r ds ++ p) 0 bs).length := by
      rw [length_write_bytes_at]; omega
    have vE : verify_string_header (write_bytes_at (wav_header r ds ++ p) 0 bs)
        "Chunk ID" CHUNK_ID 0 4 =
        Except.error (HeaderError.strField "Chunk ID" CHUNK_ID bs) := by
      unfold verify_string_header
      rw [fread_write_bytes_at_self_n _ _ _ _ (by omega) hbl]
      rw [if_neg (by omega), if_neg hne]
    simp only [append_sound_file, vE, except_bind_ok, except_bind_error, cond]
  · -- Format, string at offset 8
    dsimp only [FieldSpec.err] at hlen hne ⊢
    have hbl : bs.length = 4 := hlen
    have hwb : (44 : ℕ) ≤ (write_bytes_at (wav_header r ds ++ p) 8 bs).length := by
      rw [length_write_bytes_at]; omega
    have v1 : verify_string_header (write_bytes_at (wav_header r ds ++ p) 8 bs)
        "Chunk ID" CHUNK_ID 0 4 = Except.ok () := by
      apply verify_str_ok _ _ _ _ _ (by omega)
      rw [fread_write_bytes_at_before _ _ _ (by omega) _ _ (by omega), wav_fread_chunk_id]
    have vE : verify_string_header (write_bytes_at (wav_header r ds ++ p) 8 bs)
        "Format" FORMAT 8 4 =
        Except.error (HeaderError.strField "Format" FORMAT bs) := by
      unfold verify_string_header
      rw [fread_write_bytes_at_self_n _ _ _ _ (by omega) hbl]
      rw [if_neg (by omega), if_neg hne]
    simp only [append_sound_file, v1, vE, except_bind_ok, except_bind_error, cond]
  · -- Subchunk 1 ID, string at offset 12
    dsimp only [FieldSpec.err] at hlen hne ⊢
    have hbl : bs.length = 4 := hlen
    have hwb : (44 : ℕ) ≤ (write_bytes_at (wav_header r ds ++ p) 12 bs).length := by
      rw [length_write_bytes_at]; omega
    have v1 : verify_string_header (write_bytes_at (wav_header r ds ++ p) 12 bs)
        "Chunk ID" CHUNK_ID 0 4 = Except.ok () := by
      apply verify_str_ok _ _ _ _ _ (by omega)
      rw [fread_write_bytes_at_before _ _ _ (by omega) _ _ (by omega), wav_fread_chunk_id]
    have v2 : verify_string_header (write_bytes_at (wav_header r ds ++ p) 12 bs)
        "Format" FORMAT 8 4 = Except.ok () := by
      apply verify_str_ok _ _ _ _ _ (by omega)
      rw [fread_write_bytes_at_before _ _ _ (by omega) _ _ (by omega), wav_fread_format]
    have vE : verify_string_header (write_bytes_at (wav_header r ds ++ p) 12 bs)
        "Subchunk 1 ID" SUBCHUNK1_ID 12 4 =
        Except.error (HeaderError.strField "Subchunk 1 ID" SUBCHUNK1_ID bs) := by
      unfold verify_string_header
      rw [fread_write_bytes_at_self_n _ _ _ _ (by omega) hbl]
      rw [if_neg (by omega), if_neg hne]
    simp only [append_sound_file, v1, v2, vE, except_bind_ok, except_bind_error, cond]
  · -- Subchunk 1 size, integer at offset 16
    dsimp only [FieldSpec.err] at hlen hne ⊢
    have hbl : bs.length = 4 := hlen
    have hwb : (44 : ℕ) ≤ (write_bytes_at (wav_header r ds ++ p) 16 bs).length := by
      rw [length_write_bytes_at]; omega
    have v1 : verify_string_header (write_bytes_at (wav_header r ds ++ p) 16 bs)
        "Chunk ID" CHUNK_ID 0 4 = Except.ok () := by
      apply verify_str_ok _ _ _ _ _ (by omega)
      rw [fread_write_bytes_at_before _ _ _ (by omega) _ _ (by omega), wav_fread_chunk_id]
    have v2 : verify_string_header (write_bytes_at (wav_header r ds ++ p) 16 bs)
        "Format" FORMAT 8 4 = Except.ok () := by
      apply verify_str_ok _ _ _ _ _ (by omega)
      rw [fread_write_bytes_at_before _ _ _ (by omega) _ _ (by omega), wav_fread_format]
    have v3 : verify_string_header (write_bytes_at (wav_header r ds ++ p) 16 bs)
        "Subchunk 1 ID" SUBCHUNK1_ID 12 4 = Except.ok () := by
      apply verify_str_ok _ _ _ _ _ (by omega)
      rw [fread_write_bytes_at_before _ _ _ (by omega) _ _ (by omega), wav_fread_s1id]
    have hneq : (16 : ℕ) ≠ read_int_data bs 0 4 := by
      intro hv
      apply hne
      have hW := eq_write_int_data_of_read_n bs 4 hbl hbytes
      rw [← hv] at hW
      exact hW.symm
    have vE : verify_int_header (write_bytes_at (wav_header r ds ++ p) 16 bs)
        "Subchunk 1 size" 16 16 4 =
        Except.error (HeaderError.intField "Subchunk 1 size" 16 (read_int_data bs 0 4)) := by
      unfold verify_int_header
      rw [read_write_bytes_at_self_n _ _ _ _ (by omega) hbl]
      rw [if_neg hneq]
    simp only [append_sound_file, v1, v2, v3, vE, except_bind_ok, except_bind_error, cond]
  · -- Audio format, integer at offset 20
    dsimp only [FieldSpec.err] at hlen hne ⊢
    have hbl : bs.length = 2 := hlen
    have hwb : (44 : ℕ) ≤ (write_bytes_at (wav_header r ds ++ p) 20 bs).length := by
      rw [length_write_bytes_at]; omega
    have v1 : verify_string_header (write_bytes_at (wav_header r ds ++ p) 20 bs)
        "Chunk ID" CHUNK_ID 0 4 = Except.ok () := by
      apply verify_str_ok _ _ _ _ _ (by omega)
      rw [fread_write_bytes_at_before _ _ _ (by omega) _ _ (by omega), wav_fread_chunk_id]
    have v2 : verify_string_header (write_bytes_at (wav_header r ds ++ p) 20 bs)
        "Format" FORMAT 8 4 = Except.ok () := by
      apply verify_str_ok _ _ _ _ _ (by omega)
      rw [fread_write_bytes_at_before _ _ _ (by omega) _ _ (by omega), wav_fread_format]
    have v3 : verify_string_header (write_bytes_at (wav_header r ds ++ p) 20 bs)
        "Subchunk 1 ID" SUBCHUNK1_ID 12 4 = Except.ok () := by
      apply verify_str_ok _ _ _ _ _ (by omega)
      rw [fread_write_bytes_at_before _ _ _ (by omega) _ _ (by omega), wav_fread_s1id]
    have v4 : verify_int_header (write_bytes_at (wav_header r ds ++ p) 20 bs)
        "Subchunk 1 size" 16 16 4 = Except.ok () := by
      apply verify_int_ok
      rw [read_write_bytes_at_before _ _ _ (by omega) _ _ (by omega), wav_read_s1size]
    have hneq : (1 : ℕ) ≠ read_int_data bs 0 2 := by
      intro hv
      apply hne
      have hW := eq_write_int_data_of_read_n bs 2 hbl hbytes
      rw [← hv] at hW
      exact hW.symm
    have vE : verify_int_header (write_bytes_at (wav_header r ds ++ p) 20 bs)
        "Audio format" 1 20 2 =
        Except.error (HeaderError.intField "Audio format" 1 (read_int_data bs 0 2)) := by
      unfold verify_int_header
      rw [read_write_bytes_at_self_n _ _ _ _ (by omega) hbl]
      rw [if_neg hneq]
    simp only [append_sound_file, v1, v2, v3, v4, vE, except_bind_ok, except_bind_error, cond]
  · -- Number of channels, integer at offset 22
    dsimp only [FieldSpec.err] at hlen hne ⊢
    have hbl : bs.length = 2 := hlen
    have hwb : (44 : ℕ) ≤ (write_bytes_at (wav_header r ds ++ p) 22 bs).length := by
      rw [length_write_bytes_at]; omega
    have v1 : verify_string_header (write_bytes_at (wav_header r ds ++ p) 22 bs)
        "Chunk ID" CHUNK_ID 0 4 = Except.ok () := by
      apply verify_str_ok _ _ _ _ _ (by omega)
      rw [fread_write_bytes_at_before _ _ _ (by omega) _ _ (by omega), wav_fread_chunk_id]
    have v2 : verify_string_header (write_bytes_at (wav_header r ds ++ p) 22 bs)
        "Format" FORMAT 8 4 = Except.ok () := by
      apply verify_str_ok _ _ _ _ _ (by omega)
      rw [fread_write_bytes_at_before _ _ _ (by omega) _ _ (by omega), wav_fread_format]
    have v3 : verify_string_header (write_bytes_at (wav_header r ds ++ p) 22 bs)
        "Subchunk 1 ID" SUBCHUNK1_ID 12 4 = Except.ok () := by
      apply verify_str_ok _ _ _ _ _ (by omega)
      rw [fread_write_bytes_at_before _ _ _ (by omega) _ _ (by omega), wav_fread_s1id]
    have v4 : verify_int_header (write_bytes_at (wav_header r ds ++ p) 22 bs)
        "Subchunk 1 size" 16 16 4 = Except.ok () := by
      apply verify_int_ok
      rw [read_write_bytes_at_before _ _ _ (by omega) _ _ (by omega), wav_read_s1size]
    have v5 : verify_int_header (write_bytes_at (wav_header r ds ++ p) 22 bs)
        "Audio format" 1 20 2 = Except.ok () := by
      apply verify_int_ok
      rw [read_write_bytes_at_before _ _ _ (by omega) _ _ (by omega), wav_read_audio]
    have hneq : (1 : ℕ) ≠ read_int_data bs 0 2 := by
      intro hv
      apply hne
      have hW := eq_write_int_data_of_read_n bs 2 hbl hbytes
      rw [← hv] at hW
      exact hW.symm
    have vE : verify_int_header (write_bytes_at (wav_header r ds ++ p) 22 bs)
        "Number of channels" 1 22 2 =
        Except.error (HeaderError.intField "Number of channels" 1 (read_int_data bs 0 2)) := by
      unfold verify_int_header
      rw [read_write_bytes_at_self_n _ _ _ _ (by omega) hbl]
      rw [if_neg hneq]
    simp only [append_sound_file, v1, v2, v3, v4, v5, vE, except_bind_ok,
      except_bind_error, cond]
  · -- Sample rate, integer at offset 24
    dsimp only [FieldSpec.err] at hlen hne ⊢
    have hbl : bs.length = 4 := hlen
    have hwb : (44 : ℕ) ≤ (write_bytes_at (wav_header r ds ++ p) 24 bs).length := by
      rw [length_write_bytes_at]; omega
    have v1 : verify_string_header (write_bytes_at (wav_header r ds ++ p) 24 bs)
        "Chunk ID" CHUNK_ID 0 4 = Except.ok () := by
      apply verify_str_ok _ _ _ _ _ (by omega)
      rw [fread_write_bytes_at_before _ _ _ (by omega) _ _ (by omega), wav_fread_chunk_id]
    have v2 : verify_string_header (write_bytes_at (wav_header r ds ++ p) 24 bs)
        "Format" FORMAT 8 4 = Except.ok () := by
      apply verify_str_ok _ _ _ _ _ (by omega)
      rw [fread_write_bytes_at_before _ _ _ (by omega) _ _ (by omega), wav_fread_format]
    have v3 : verify_string_header (write_bytes_at (wav_header r ds ++ p) 24 bs)
        "Subchunk 1 ID" SUBCHUNK1_ID 12 4 = Except.ok () := by
      apply verify_str_ok _ _ _ _ _ (by omega)
      rw [fread_write_bytes_at_before _ _ _ (by omega) _ _ (by omega), wav_fread_s1id]
    have v4 : verify_int_header (write_bytes_at (wav_header r ds ++ p) 24 bs)
        "Subchunk 1 size" 16 16 4 = Except.ok () := by
      apply verify_int_ok
      rw [read_write_bytes_at_before _ _ _ (by omega) _ _ (by omega), wav_read_s1size]
    have v5 : verify_int_header (write_bytes_at (wav_header r ds ++ p) 24 bs)
        "Audio format" 1 20 2 = Except.ok () := by
      apply verify_int_ok
      rw [read_write_bytes_at_before _ _ _ (by omega) _ _ (by omega), wav_read_audio]
    have v6 : verify_int_header (write_bytes_at (wav_header r ds ++ p) 24 bs)
        "Number of channels" 1 22 2 = Except.ok () := by
      apply verify_int_ok
      rw [read_write_bytes_at_before _ _ _ (by omega) _ _ (by omega), wav_read_channels]
    have hneq : r % 2 ^ 32 ≠ read_int_data bs 0 4 := by
      intro hv
      apply hne
      have hW := eq_write_int_data_of_read_n bs 4 hbl hbytes
      rw [← hv] at hW
      exact hW.symm
    have vE : verify_int_header (write_bytes_at (wav_header r ds ++ p) 24 bs)
        "Sample rate" (r % 2 ^ 32) 24 4 =
        Except.error
          (HeaderError.intField "Sample rate" (r % 2 ^ 32) (read_int_data bs 0 4)) := by
      unfold verify_int_header
      rw [read_write_bytes_at_self_n _ _ _ _ (by omega) hbl]
      rw [if_neg hneq]
    simp only [append_sound_file, v1, v2, v3, v4, v5, v6, vE, except_bind_ok,
      except_bind_error, cond]
  · -- Byte rate, integer at offset 28
    dsimp only [FieldSpec.err] at hlen hne ⊢
    have hbl : bs.length = 4 := hlen
    have hwb : (44 : ℕ) ≤ (write_bytes_at (wav_header r ds ++ p) 28 bs).length := by
      rw [length_write_bytes_at]; omega
    have v1 : verify_string_header (write_bytes_at (wav_header r ds ++ p) 28 bs)
        "Chunk ID" CHUNK_ID 0 4 = Except.ok () := by
      apply verify_str_ok _ _ _ _ _ (by omega)
      rw [fread_write_bytes_at_before _ _ _ (by omega) _ _ (by omega), wav_fread_chunk_id]
    have v2 : verify_string_header (write_bytes_at (wav_header r ds ++ p) 28 bs)
        "Format" FORMAT 8 4 = Except.ok () := by
      apply verify_str_ok _ _ _ _ _ (by omega)
      rw [fread_write_bytes_at_before _ _ _ (by omega) _ _ (by omega), wav_fread_format]
    have v3 : verify_string_header (write_bytes_at (wav_header r ds ++ p) 28 bs)
        "Subchunk 1 ID" SUBCHUNK1_ID 12 4 = Except.ok () := by
      apply verify_str_ok _ _ _ _ _ (by omega)
      rw [fread_write_bytes_at_before _ _ _ (by omega) _ _ (by omega), wav_fread_s1id]
    have v4 : verify_int_header (write_bytes_at (wav_header r ds ++ p) 28 bs)
        "Subchunk 1 size" 16 16 4 = Except.ok () := by
      apply verify_int_ok
      rw [read_write_bytes_at_before _ _ _ (by omega) _ _ (by omega), wav_read_s1size]
    have v5 : verify_int_header (write_bytes_at (wav_header r ds ++ p) 28 bs)
        "Audio format" 1 20 2 = Except.ok () := by
      apply verify_int_ok
      rw [read_write_bytes_at_before _ _ _ (by omega) _ _ (by omega), wav_read_audio]
    have v6 : verify_int_header (write_bytes_at (wav_header r ds ++ p) 28 bs)
        "Number of channels" 1 22 2 = Except.ok () := by
      apply verify_int_ok
      rw [read_write_bytes_at_before _ _ _ (by omega) _ _ (by omega), wav_read_channels]
    have v7 : verify_int_header (write_bytes_at (wav_header r ds ++ p) 28 bs)
        "Sample rate" (r % 2 ^ 32) 24 4 = Except.ok () := by
      apply verify_int_ok
      rw [read_write_bytes_at_before _ _ _ (by omega) _ _ (by omega), wav_read_rate]
    have hneq : BYTE_RATE r ≠ read_int_data bs 0 4 := by
      intro hv
      apply hne
      have hW := eq_write_int_data_of_read_n bs 4 hbl hbytes
      rw [← hv] at hW
      exact hW.symm
    have vE : verify_int_header (write_bytes_at (wav_header r ds ++ p) 28 bs)
        "Byte rate" (BYTE_RATE r) 28 4 =
        Except.error
          (HeaderError.intField "Byte rate" (BYTE_RATE r) (read_int_data bs 0 4)) := by
      unfold verify_int_header
      rw [read_write_bytes_at_self_n _ _ _ _ (by omega) hbl]
      rw [if_neg hneq]
    simp only [append_sound_file, v1, v2, v3, v4, v5, v6, v7, vE, except_bind_ok,
      except_bind_error, cond]
  · -- Block align, integer at offset 32
    dsimp only [FieldSpec.err] at hlen hne ⊢
    have hbl : bs.length = 2 := hlen
    have hwb : (44 : ℕ) ≤ (write_bytes_at (wav_header r ds ++ p) 32 bs).length := by
      rw [length_write_bytes_at]; omega
    have v1 : verify_string_header (write_bytes_at (wav_header r ds ++ p) 32 bs)
        "Chunk ID" CHUNK_ID 0 4 = Except.ok () := by
      apply verify_str_ok _ _ _ _ _ (by omega)
      rw [fread_write_bytes_at_before _ _ _ (by omega) _ _ (by omega), wav_fread_chunk_id]
    have v2 : verify_string_header (write_bytes_at (wav_header r ds ++ p) 32 bs)
        "Format" FORMAT 8 4 = Except.ok () := by
      apply verify_str_ok _ _ _ _ _ (by omega)
      rw [fread_write_bytes_at_before _ _ _ (by omega) _ _ (by omega), wav_fread_format]
    have v3 : verify_string_header (write_bytes_at (wav_header r ds ++ p) 32 bs)
        "Subchunk 1 ID" SUBCHUNK1_ID 12 4 = Except.ok () := by
      apply verify_str_ok _ _ _ _ _ (by omega)
      rw [fread_write_bytes_at_before _ _ _ (by omega) _ _ (by omega), wav_fread_s1id]
    have v4 : verify_int_header (write_bytes_at (wav_header r ds ++ p) 32 bs)
        "Subchunk 1 size" 16 16 4 = Except.ok () := by
      apply verify_int_ok
      rw [read_write_bytes_at_before _ _ _ (by omega) _ _ (by omega), wav_read_s1size]
    have v5 : verify_int_header (write_bytes_at (wav_header r ds ++ p) 32 bs)
        "Audio format" 1 20 2 = Except.ok () := by
      apply verify_int_ok
      rw [read_write_bytes_at_before _ _ _ (by omega) _ _ (by omega), wav_read_audio]
    have v6 : verify_int_header (write_bytes_at (wav_header r ds ++ p) 32 bs)
        "Number of channels" 1 22 2 = Except.ok () := by
      apply verify_int_ok
      rw [read_write_bytes_at_before _ _ _ (by omega) _ _ (by omega), wav_read_channels]
    have v7 : verify_int_header (write_bytes_at (wav_header r ds ++ p) 32 bs)
        "Sample rate" (r % 2 ^ 32) 24 4 = Except.ok () := by
      apply verify_int_ok
      rw [read_write_bytes_at_before _ _ _ (by omega) _ _ (by omega), wav_read_rate]
    have v8 : verify_int_header (write_bytes_at (wav_header r ds ++ p) 32 bs)
        "Byte rate" (BYTE_RATE r) 28 4 = Except.ok () := by
      apply verify_int_ok
      rw [read_write_bytes_at_before _ _ _ (by omega) _ _ (by omega), wav_read_byte_rate]
    have hneq : (2 : ℕ) ≠ read_int_data bs 0 2 := by
      intro hv
      apply hne
      have hW := eq_write_int_data_of_read_n bs 2 hbl hbytes
      rw [← hv] at hW
      exact hW.symm
    have vE : verify_int_header (write_bytes_at (wav_header r ds ++ p) 32 bs)
        "Block align" 2 32 2 =
        Except.error (HeaderError.intField "Block align" 2 (read_int_data bs 0 2)) := by
      unfold verify_int_header
      rw [read_write_bytes_at_self_n _ _ _ _ (by omega) hbl]
      rw [if_neg hneq]
    simp only [append_sound_file, v1, v2, v3, v4, v5, v6, v7, v8, vE, except_bind_ok,
      except_bind_error, cond]
  · -- Bits per sample, integer at offset 34
    dsimp only [FieldSpec.err] at hlen hne ⊢
    have hbl : bs.length = 2 := hlen
    have hwb : (44 : ℕ) ≤ (write_bytes_at (wav_header r ds ++ p) 34 bs).length := by
      rw [length_write_bytes_at]; omega
    have v1 : verify_string_header (write_bytes_at (wav_header r ds ++ p) 34 bs)
        "Chunk ID" CHUNK_ID 0 4 = Except.ok () := by
      apply verify_str_ok _ _ _ _ _ (by omega)
      rw [fread_write_bytes_at_before _ _ _ (by omega) _ _ (by omega), wav_fread_chunk_id]
    have v2 : verify_string_header (write_bytes_at (wav_header r ds ++ p) 34 bs)
        "Format" FORMAT 8 4 = Except.ok () := by
      apply verify_str_ok _ _ _ _ _ (by omega)
      rw [fread_write_bytes_at_before _ _ _ (by omega) _ _ (by omega), wav_fread_format]
    have v3 : verify_string_header (write_bytes_at (wav_header r ds ++ p) 34 bs)
        "Subchunk 1 ID" SUBCHUNK1_ID 12 4 = Except.ok () := by
      apply verify_str_ok _ _ _ _ _ (by omega)
      rw [fread_write_bytes_at_before _ _ _ (by omega) _ _ (by omega), wav_fread_s1id]
    have v4 : verify_int_header (write_bytes_at (wav_header r ds ++ p) 34 bs)
        "Subchunk 1 size" 16 16 4 = Except.ok () := by
      apply verify_int_ok
      rw [read_write_bytes_at_before _ _ _ (by omega) _ _ (by omega), wav_read_s1size]
    have v5 : verify_int_header (write_bytes_at (wav_header r ds ++ p) 34 bs)
        "Audio format" 1 20 2 = Except.ok () := by
      apply verify_int_ok
      rw [read_write_bytes_at_before _ _ _ (by omega) _ _ (by omega), wav_read_audio]
    have v6 : verify_int_header (write_bytes_at (wav_header r ds ++ p) 34 bs)
        "Number of channels" 1 22 2 = Except.ok () := by
      apply verify_int_ok
      rw [read_write_bytes_at_before _ _ _ (by omega) _ _ (by omega), wav_read_channels]
    have v7 : verify_int_header (write_bytes_at (wav_header r ds ++ p) 34 bs)
        "Sample rate" (r % 2 ^ 32) 24 4 = Except.ok () := by
      apply verify_int_ok
      rw [read_write_bytes_at_before _ _ _ (by omega) _ _ (by omega), wav_read_rate]
    have v8 : verify_int_header (write_bytes_at (wav_header r ds ++ p) 34 bs)
        "Byte rate" (BYTE_RATE r) 28 4 = Except.ok () := by
      apply verify_int_ok
      rw [read_write_bytes_at_before _ _ _ (by omega) _ _ (by omega), wav_read_byte_rate]
    have v9 : verify_int_header (write_bytes_at (wav_header r ds ++ p) 34 bs)
        "Block align" 2 32 2 = Except.ok () := by
      apply verify_int_ok
      rw [read_write_bytes_at_before _ _ _ (by omega) _ _ (by omega), wav_read_block]
    have hneq : (16 : ℕ) ≠ read_int_data bs 0 2 := by
      intro hv
      apply hne
      have hW := eq_write_int_data_of_read_n bs 2 hbl hbytes
      rw [← hv] at hW
      exact hW.symm
    have vE : verify_int_header (write_bytes_at (wav_header r ds ++ p) 34 bs)
        "Bits per sample" 16 34 2 =
        Except.error (HeaderError.intField "Bits per sample" 16 (read_int_data bs 0 2)) := by
      unfold verify_int_header
      rw [read_write_bytes_at_self_n _ _ _ _ (by omega) hbl]
      rw [if_neg hneq]
    simp only [append_sound_file, v1, v2, v3, v4, v5, v6, v7, v8, v9, vE,
      except_bind_ok, except_bind_error, cond]
  · -- Subchunk 2 ID, string at offset 36
    dsimp only [FieldSpec.err] at hlen hne ⊢
    have hbl : bs.length = 4 := hlen
    have hwb : (44 : ℕ) ≤ (write_bytes_at (wav_header r ds ++ p) 36 bs).length := by
      rw [length_write_bytes_at]; omega
    have v1 : verify_string_header (write_bytes_at (wav_header r ds ++ p) 36 bs)
        "Chunk ID" CHUNK_ID 0 4 = Except.ok () := by
      apply verify_str_ok _ _ _ _ _ (by omega)
      rw [fread_write_bytes_at_before _ _ _ (by omega) _ _ (by omega), wav_fread_chunk_id]
    have v2 : verify_string_header (write_bytes_at (wav_header r ds ++ p) 36 bs)
        "Format" FORMAT 8 4 = Except.ok () := by
      apply verify_str_ok _ _ _ _ _ (by omega)
      rw [fread_write_bytes_at_before _ _ _ (by omega) _ _ (by omega), wav_fread_format]
    have v3 : verify_string_header (write_bytes_at (wav_header r ds ++ p) 36 bs)
        "Subchunk 1 ID" SUBCHUNK1_ID 12 4 = Except.ok () := by
      apply verify_str_ok _ _ _ _ _ (by omega)
      rw [fread_write_bytes_at_before _ _ _ (by omega) _ _ (by omega), wav_fread_s1id]
    have v4 : verify_int_header (write_bytes_at (wav_header r ds ++ p) 36 bs)
        "Subchunk 1 size" 16 16 4 = Except.ok () := by
      apply verify_int_ok
      rw [read_write_bytes_at_before _ _ _ (by omega) _ _ (by omega), wav_read_s1size]
    have v5 : verify_int_header (write_bytes_at (wav_header r ds ++ p) 36 bs)
        "Audio format" 1 20 2 = Except.ok () := by
      apply verify_int_ok
      rw [read_write_bytes_at_before _ _ _ (by omega) _ _ (by omega), wav_read_audio]
    have v6 : verify_int_header (write_bytes_at (wav_header r ds ++ p) 36 bs)
        "Number of channels" 1 22 2 = Except.ok () := by
      apply verify_int_ok
      rw [read_write_bytes_at_before _ _ _ (by omega) _ _ (by omega), wav_read_channels]
    have v7 : verify_int_header (write_bytes_at (wav_header r ds ++ p) 36 bs)
        "Sample rate" (r % 2 ^ 32) 24 4 = Except.ok () := by
      apply verify_int_ok
      rw [read_write_bytes_at_before _ _ _ (by omega) _ _ (by omega), wav_read_rate]
    have v8 : verify_int_header (write_bytes_at (wav_header r ds ++ p) 36 bs)
        "Byte rate" (BYTE_RATE r) 28 4 = Except.ok () := by
      apply verify_int_ok
      rw [read_write_bytes_at_before _ _ _ (by omega) _ _ (by omega), wav_read_byte_rate]
    have v9 : verify_int_header (write_bytes_at (wav_header r ds ++ p) 36 bs)
        "Block align" 2 32 2 = Except.ok () := by
      apply verify_int_ok
      rw [read_write_bytes_at_before _ _ _ (by omega) _ _ (by omega), wav_read_block]
    have v10 : verify_int_header (write_bytes_at (wav_header r ds ++ p) 36 bs)
        "Bits per sample" 16 34 2 = Except.ok () := by
      apply verify_int_ok
      rw [read_write_bytes_at_before _ _ _ (by omega) _ _ (by omega), wav_read_bits]
    have vE : verify_string_header (write_bytes_at (wav_header r ds ++ p) 36 bs)
        "Subchunk 2 ID" SUBCHUNK2_ID 36 4 =
        Except.error (HeaderError.strField "Subchunk 2 ID" SUBCHUNK2_ID bs) := by
      unfold verify_string_header
      rw [fread_write_bytes_at_self_n _ _ _ _ (by omega) hbl]
      rw [if_neg (by omega), if_neg hne]
    simp only [append_sound_file, v1, v2, v3, v4, v5, v6, v7, v8, v9, v10, vE,
      except_bind_ok, except_bind_error, cond]

theorem c2_witness :
    ((⟨"Chunk ID", 0, 4, true, 0, CHUNK_ID⟩ : FieldSpec) ∈ fixedFields 8000 ∧
      ([(0 : ℕ), 0, 0, 0].length = (4 : ℕ)) ∧ (∀ b ∈ [(0 : ℕ), 0, 0, 0], b < 256) ∧
      [(0 : ℕ), 0, 0, 0] ≠ CHUNK_ID) ∧
      append_sound_file
          (write_bytes_at (create_sound_file [] 8000) 0 [0, 0, 0, 0]) [] 8000 =
        Except.error
          ((⟨"Chunk ID", 0, 4, true, 0, CHUNK_ID⟩ : FieldSpec).err [0, 0, 0, 0]) :=
  ⟨⟨by decide, rfl, by decide, by decide⟩,
    c2_single_field_corruption [] [] 8000 ⟨"Chunk ID", 0, 4, true, 0, CHUNK_ID⟩
      (by decide) [0, 0, 0, 0] rfl (by decide) (by decide)⟩

end Sound
